import Mathlib

/-
  Verification of the GuaBoot stage-2 loader (GuardBSD boot chain).

  Shallow embedding of:
    - src/boot/guaboot/loader/loader.c        (validate_elf_header,
      load_kernel_from_memory, crc32_calc, build_bootinfo,
      enable_long_mode_and_jump)
    - src/boot/guaboot/bios/guaboot2_complete.c (verify_elf, load_elf,
      detect_memory, guaboot2_main bootinfo assembly)
    - src/boot/guaboot/efi/guaboot_complete.c   (verify_elf, load_elf,
      compute_kernel_crc, build_bootinfo, efi_main exit-boot-services
      sequence)

  Machine integers are modelled as Nat; physical memory as a total map
  from addresses to byte values.  The staged ELF image is taken in its
  structured form (header, program-header table, file bytes by offset),
  matching how the C code reinterprets the staging buffer; the source
  bytes are modelled as immutable, i.e. the destination ranges are
  assumed not to clobber the staging buffer itself.
-/

namespace GuaBoot

/-- Byte-addressed physical memory: a total map from addresses to byte values. -/
abbrev Mem := Nat → Nat

/-- ELF64 program-header entry: the fields the loaders read
(src/boot/guaboot/loader/loader.c, Elf64_Phdr). -/
structure Phdr where
  p_type : Nat
  p_offset : Nat
  p_paddr : Nat
  p_filesz : Nat
  p_memsz : Nat
deriving DecidableEq, Repr

/-- ELF64 file header: the fields the loaders read
(src/boot/guaboot/loader/loader.c, Elf64_Ehdr).  The first six fields are the
identity bytes inspected by the verifiers (e_ident[0..5]). -/
structure Ehdr where
  ei_mag0 : Nat
  ei_mag1 : Nat
  ei_mag2 : Nat
  ei_mag3 : Nat
  ei_class : Nat
  ei_data : Nat
  e_type : Nat
  e_machine : Nat
  e_entry : Nat
  e_phoff : Nat
deriving DecidableEq, Repr

/-- A structured view of an ELF image staged in memory: header,
program-header table, and raw file bytes indexed by file offset. -/
structure ElfImage where
  hdr : Ehdr
  phdrs : List Phdr
  file : Nat → Nat

def PT_LOAD : Nat := 1
def ET_EXEC : Nat := 2
def ET_DYN : Nat := 3
def ELFCLASS64 : Nat := 2
def ELFDATA2LSB : Nat := 1
def EM_X86_64 : Nat := 62
def GBSD_MAGIC : Nat := 0x42534447
def UINT64_MAX : Nat := 0xFFFFFFFFFFFFFFFF

/-- validate_elf_header from src/boot/guaboot/loader/loader.c (lines 348-368):
checks the four magic bytes, then class, endianness, object type and machine. -/
def validate_elf_header (h : Ehdr) : Bool :=
  if h.ei_mag0 ≠ 0x7F ∨ h.ei_mag1 ≠ 0x45 ∨ h.ei_mag2 ≠ 0x4C ∨ h.ei_mag3 ≠ 0x46 then
    false
  else if h.ei_class ≠ ELFCLASS64 ∨ h.ei_data ≠ ELFDATA2LSB ∨
          h.e_type ≠ ET_EXEC ∨ h.e_machine ≠ EM_X86_64 then
    false
  else
    true

/-- verify_elf from src/boot/guaboot/bios/guaboot2_complete.c (lines 198-218)
and src/boot/guaboot/efi/guaboot_complete.c (lines 218-235): checks the four
magic bytes, the class byte and the machine field only. -/
def verify_elf (h : Ehdr) : Bool :=
  if h.ei_mag0 ≠ 0x7F ∨ h.ei_mag1 ≠ 0x45 ∨ h.ei_mag2 ≠ 0x4C ∨ h.ei_mag3 ≠ 0x46 then
    false
  else if h.ei_class ≠ ELFCLASS64 then
    false
  else if h.e_machine ≠ EM_X86_64 then
    false
  else
    true

/-- Effect on memory of loading one PT_LOAD segment: copy p_filesz bytes from
the file at p_offset to p_paddr, then zero-fill up to p_memsz (the copy loop
and BSS loop shared by all three loaders). -/
def writeSeg (file : Nat → Nat) (ph : Phdr) (m : Mem) : Mem := fun a =>
  if ph.p_paddr ≤ a ∧ a < ph.p_paddr + ph.p_filesz then
    file (ph.p_offset + (a - ph.p_paddr))
  else if ph.p_paddr ≤ a ∧ a < ph.p_paddr + ph.p_memsz then
    0
  else
    m a

/-- The segment-copy loop of load_elf in guaboot2_complete.c (lines 233-253)
and guaboot_complete.c (lines 268-286): process program headers in order,
loading each PT_LOAD entry; no address check is performed. -/
def loadSegs (file : Nat → Nat) (phdrs : List Phdr) (m : Mem) : Mem :=
  phdrs.foldl (fun m2 ph => if ph.p_type = PT_LOAD then writeSeg file ph m2 else m2) m

/-- Loop state of load_kernel_from_memory in loader.c: current memory, the
running minimum load address (load_base, initially UINT64_MAX) and the running
maximum segment end (load_end, initially 0). -/
structure LoadSt where
  mem : Mem
  base : Nat
  stop : Nat

/-- One successful iteration of the loader.c segment loop: copy the segment
and update the min/max tracking. -/
def loadStep (file : Nat → Nat) (st : LoadSt) (ph : Phdr) : LoadSt :=
  { mem := writeSeg file ph st.mem
    base := min st.base ph.p_paddr
    stop := max st.stop (ph.p_paddr + ph.p_memsz) }

/-- The segment loop of load_kernel_from_memory in loader.c (lines 396-429):
non-loadable entries are skipped; a loadable entry with p_paddr below 1 MiB
makes the function return NULL immediately, leaving memory as mutated so far;
otherwise the segment is loaded and the scan continues. -/
def loadLoop (file : Nat → Nat) : List Phdr → LoadSt → Bool × LoadSt
  | [], st => (true, st)
  | ph :: rest, st =>
    if ph.p_type ≠ PT_LOAD then loadLoop file rest st
    else if ph.p_paddr < 0x100000 then (false, st)
    else loadLoop file rest (loadStep file st ph)

/-- Folding the successful loader.c iterations over a list of program headers
(used to describe the memory state reached before an abort). -/
def loadOkSegs (file : Nat → Nat) (pre : List Phdr) (st : LoadSt) : LoadSt :=
  pre.foldl (fun st2 q => if q.p_type = PT_LOAD then loadStep file st2 q else st2) st

/-- One bit-step of the reflected CRC32 (the inner loop body shared by
crc32_calc in loader.c and crc32 in the BIOS/EFI loaders):
crc = (crc >> 1) ^ (0xEDB88320 & -(crc & 1)). -/
def crc32_round (crc : Nat) : Nat :=
  if crc % 2 = 1 then (crc / 2) ^^^ 0xEDB88320 else crc / 2

/-- One byte-step of CRC32: xor the byte into the low bits, then eight
bit-steps. -/
def crc32_byte (crc b : Nat) : Nat :=
  crc32_round (crc32_round (crc32_round (crc32_round
    (crc32_round (crc32_round (crc32_round (crc32_round (crc ^^^ b))))))))

/-- crc32_calc from loader.c (lines 183-193): IEEE 802.3 CRC32, reflected
polynomial 0xEDB88320, initial and final xor 0xFFFFFFFF, over a byte list. -/
def crc32_calc (data : List Nat) : Nat :=
  (data.foldl (fun crc b => crc32_byte crc (b % 256)) 0xFFFFFFFF) ^^^ 0xFFFFFFFF

/-- The byte sequence of memory range [base, base+len). -/
def readRange (m : Mem) (base len : Nat) : List Nat :=
  (List.range len).map fun i => m (base + i)

/-- The minimum p_paddr over the PT_LOAD entries of a program-header list,
folded from an initial value (the spec-side description of the load_base
tracking in loader.c). -/
def minLoadBase : List Phdr → Nat → Nat
  | [], b => b
  | ph :: rest, b =>
    if ph.p_type = PT_LOAD then minLoadBase rest (min b ph.p_paddr)
    else minLoadBase rest b

/-- The maximum p_paddr + p_memsz over the PT_LOAD entries of a
program-header list, folded from an initial value (the spec-side description
of the load_end tracking in loader.c). -/
def maxLoadEnd : List Phdr → Nat → Nat
  | [], e => e
  | ph :: rest, e =>
    if ph.p_type = PT_LOAD then maxLoadEnd rest (max e (ph.p_paddr + ph.p_memsz))
    else maxLoadEnd rest e

/-- Result of load_kernel_from_memory in loader.c: whether a non-NULL entry
pointer was returned, the entry value, the memory after the call, and the
kernel_load_base / kernel_load_size / kernel_crc32_value globals it sets. -/
structure LoadOutcome where
  ok : Bool
  entry : Nat
  mem : Mem
  kernel_base : Nat
  kernel_size : Nat
  kernel_crc32 : Nat

/-- The KERNEL_PHYS_PTR handoff-slot logic of load_kernel_from_memory
(loader.c lines 370-377): a zero slot value falls back to the legacy address
0x10000; any nonzero value is used as the image location. -/
def kernel_load_addr (slot : Nat) : Nat :=
  if slot = 0 then 0x10000 else slot

/-- load_kernel_from_memory from loader.c (lines 370-450).  The parameter
images gives the structured decode of the ELF image staged at each candidate
physical base address; slot is the value found in the KERNEL_PHYS_PTR slot at
0x7000.  The final CRC length is truncated to 32 bits as in the C cast. -/
def load_kernel_from_memory (images : Nat → ElfImage) (slot : Nat) (m : Mem) :
    LoadOutcome :=
  if validate_elf_header (images (kernel_load_addr slot)).hdr = false then
    { ok := false, entry := 0, mem := m,
      kernel_base := 0, kernel_size := 0, kernel_crc32 := 0 }
  else
    match loadLoop (images (kernel_load_addr slot)).file
        (images (kernel_load_addr slot)).phdrs
        { mem := m, base := UINT64_MAX, stop := 0 } with
    | (false, st) =>
      { ok := false, entry := 0, mem := st.mem,
        kernel_base := 0, kernel_size := 0, kernel_crc32 := 0 }
    | (true, st) =>
      if st.base ≠ UINT64_MAX ∧ st.base < st.stop then
        { ok := true, entry := (images (kernel_load_addr slot)).hdr.e_entry,
          mem := st.mem,
          kernel_base := st.base, kernel_size := st.stop - st.base,
          kernel_crc32 :=
            crc32_calc (readRange st.mem st.base ((st.stop - st.base) % 2 ^ 32)) }
      else
        { ok := true, entry := (images (kernel_load_addr slot)).hdr.e_entry,
          mem := st.mem,
          kernel_base := 0, kernel_size := 0, kernel_crc32 := 0 }

/-- load_elf from guaboot2_complete.c (lines 220-260) and guaboot_complete.c
(lines 256-291): returns 0 if verification fails, otherwise loads every
PT_LOAD segment and returns e_entry; the loaded memory is the second
component. -/
def load_elf (img : ElfImage) (m : Mem) : Nat × Mem :=
  if verify_elf img.hdr = false then (0, m)
  else (img.hdr.e_entry, loadSegs img.file img.phdrs m)

/-- The caller check shared by guaboot2_main (guaboot2_complete.c lines
344-347) and efi_main (guaboot_complete.c lines 391-396): a returned entry
value of 0 is treated as a fatal load failure and the image is not booted. -/
def caller_boots (entry : Nat) : Bool :=
  if entry = 0 then false else true

/-- compute_kernel_crc from guaboot_complete.c (lines 237-254): starting from
0, xor together the CRC32 of each PT_LOAD segment range
[p_paddr, p_paddr + p_memsz), read from loaded memory. -/
def compute_kernel_crc (img : ElfImage) (m : Mem) : Nat :=
  if verify_elf img.hdr = false then 0
  else
    img.phdrs.foldl
      (fun crc ph =>
        if ph.p_type = PT_LOAD then
          crc ^^^ crc32_calc (readRange m ph.p_paddr ph.p_memsz)
        else crc)
      0

/-- Field layout (byte sizes, in declaration order, explicit padding included)
of the BootInfo struct in loader.c (lines 156-174): four uint32, four uint64,
boot_device + pad0, cmdline, mods_count + pad1, mods, mmap, mmap_count + pad2. -/
def bootinfo_layout_loader : List Nat :=
  [4, 4, 4, 4, 8, 8, 8, 8, 4, 4, 8, 4, 4, 8, 8, 4, 4]

/-- sizeof(BootInfo) for loader.c, computed from the field layout. -/
def sizeof_bootinfo_loader : Nat := bootinfo_layout_loader.sum

/-- Field layout of struct BootInfo in guaboot2_complete.c (lines 28-41),
compiled for the 32-bit BIOS stage (4-byte pointers, 4-byte alignment of
uint64_t on i386, hence no implicit padding). -/
def bootinfo_layout_bios : List Nat :=
  [4, 4, 4, 4, 8, 8, 4, 4, 4, 4, 4, 4]

/-- sizeof(struct BootInfo) for the BIOS stage, computed from the layout. -/
def sizeof_bootinfo_bios : Nat := bootinfo_layout_bios.sum

/-- Field layout of the packed struct BootInfo in guaboot_complete.c (lines
19-32), 64-bit target with 8-byte pointers and no padding (packed). -/
def bootinfo_layout_efi : List Nat :=
  [4, 4, 4, 4, 8, 8, 4, 8, 4, 8, 8, 4]

/-- sizeof(struct BootInfo) for the EFI loader, computed from the layout. -/
def sizeof_bootinfo_efi : Nat := bootinfo_layout_efi.sum

/-- The scalar header fields of the boot record a loader hands to the kernel. -/
structure BootRecord where
  magic : Nat
  version : Nat
  size : Nat
  kernel_crc32 : Nat
  mem_lower : Nat
  mem_upper : Nat

/-- build_bootinfo from loader.c (lines 206-238): fixed magic, version 1,
size = sizeof(BootInfo), the recorded kernel CRC, and the legacy memory
totals 640 KiB low / 128 MiB high. -/
def build_bootinfo (crc : Nat) : BootRecord :=
  { magic := GBSD_MAGIC
    version := 1
    size := sizeof_bootinfo_loader
    kernel_crc32 := crc
    mem_lower := 640
    mem_upper := 128 * 1024 }

/-- The BootInfo assembly in guaboot2_main (guaboot2_complete.c lines
357-369): magic, version 0x00010000, size = sizeof(struct BootInfo), and the
hard-coded totals 1024 KiB low / 127 MiB high. -/
def bios_build_bootinfo (crc : Nat) : BootRecord :=
  { magic := GBSD_MAGIC
    version := 0x00010000
    size := sizeof_bootinfo_bios
    kernel_crc32 := crc
    mem_lower := 1024
    mem_upper := 127 * 1024 }

/-- A UEFI memory descriptor: the fields build_bootinfo reads. -/
structure EfiDesc where
  typ : Nat
  physicalStart : Nat
  numberOfPages : Nat
deriving DecidableEq, Repr

/-- EfiConventionalMemory type code. -/
def EfiConventionalMemory : Nat := 7

/-- build_bootinfo from guaboot_complete.c (lines 297-352): fixed header
fields, then the memory totals aggregated from the UEFI memory map, counting
only EfiConventionalMemory descriptors, split at the 1 MiB line by the
physical start address, each contribution being pages * 4096 / 1024 KiB. -/
def efi_build_bootinfo (descs : List EfiDesc) (crc : Nat) : BootRecord :=
  let totals :=
    descs.foldl
      (fun p d =>
        if d.typ = EfiConventionalMemory then
          if d.physicalStart < 0x100000 then
            (p.1 + d.numberOfPages * 4096 / 1024, p.2)
          else
            (p.1, p.2 + d.numberOfPages * 4096 / 1024)
        else p)
      (0, 0)
  { magic := GBSD_MAGIC
    version := 0x00010000
    size := sizeof_bootinfo_efi
    kernel_crc32 := crc
    mem_lower := totals.1
    mem_upper := totals.2 }

/-- A BIOS E820 memory-map entry: the fields detect_memory reads. -/
structure E820Entry where
  base : Nat
  length : Nat
  typ : Nat
deriving DecidableEq, Repr

/-- The aggregation loop of detect_memory in guaboot2_complete.c (lines
269-306): only type-1 (available) entries count; an entry based below 1 MiB
overwrites mem_lower with length / 1024, any other adds length / 1024 to
mem_upper.  Returns (mem_lower, mem_upper) in KiB. -/
def detect_memory_e820 (entries : List E820Entry) : Nat × Nat :=
  entries.foldl
    (fun p e =>
      if e.typ ≠ 1 then p
      else if e.base < 0x100000 then (e.length / 1024, p.2)
      else (p.1, p.2 + e.length / 1024))
    (0, 0)

/-- Hardware-state mutations performed by enable_long_mode_and_jump in
loader.c: descriptor-table load, segment reloads, stack setup, debug-port
output, control-register writes, the MSR write and the final far jump. -/
inductive HwOp where
  | lgdt
  | loadDataSegments
  | setStack
  | debugOut (c : Nat)
  | writeCr4 (pae : Bool)
  | writeCr3
  | writeMsr (index : Nat) (lme nxe : Bool)
  | writeCr0 (pg : Bool)
  | farJump (selector offset : Nat)
deriving DecidableEq, Repr

/-- Linear address of the 64-bit transition stub (loader.c ENTRY64_LINEAR). -/
def ENTRY64_LINEAR : Nat := 0xF000

/-- The straight-line trace of hardware writes performed by
enable_long_mode_and_jump in loader.c (lines 291-346), in source order:
lgdt, data-segment reloads, stack setup, CR4.PAE, CR3 := pml4,
MSR 0xC0000080 |= LME | NXE, CR0.PG, far jump through selector 0x08 to the
transition stub, with the debug-port bytes interleaved as in the source. -/
def enable_long_mode_trace : List HwOp :=
  [ HwOp.lgdt
  , HwOp.loadDataSegments
  , HwOp.setStack
  , HwOp.debugOut 65
  , HwOp.writeCr4 true
  , HwOp.debugOut 67
  , HwOp.writeCr3
  , HwOp.debugOut 66
  , HwOp.writeMsr 0xC0000080 true true
  , HwOp.debugOut 68
  , HwOp.writeCr0 true
  , HwOp.debugOut 69
  , HwOp.farJump 0x08 ENTRY64_LINEAR ]

/-- Selector predicate for the mode-transition writes named by the required
sequence (descriptor table, control registers, MSR, final jump). -/
def isSeqOp : HwOp → Bool
  | HwOp.lgdt => true
  | HwOp.writeCr4 _ => true
  | HwOp.writeCr3 => true
  | HwOp.writeMsr _ _ _ => true
  | HwOp.writeCr0 _ => true
  | HwOp.farJump _ _ => true
  | _ => false

/-- Selector predicate for control-register writes. -/
def isCrWrite : HwOp → Bool
  | HwOp.writeCr4 _ => true
  | HwOp.writeCr3 => true
  | HwOp.writeCr0 _ => true
  | _ => false

/-- Firmware behaviour visible to the exit-boot-services sequence of
efi_main: ebsErr k is the error ExitBootServices reports when called with map
key k (none on success); gmmRes is the outcome of the single post-failure
GetMemoryMap re-fetch (a fresh key on success, an error otherwise). -/
structure EfiFirmware where
  ebsErr : Nat → Option Nat
  gmmRes : Except Nat Nat

/-- What the exit sequence did: the map keys passed to ExitBootServices in
order, the number of post-failure GetMemoryMap calls, and the propagated
fatal error, if any. -/
structure ExitTrace where
  ebsKeys : List Nat
  gmmCalls : Nat
  fatal : Option Nat
deriving DecidableEq, Repr

/-- The ExitBootServices sequence of efi_main (guaboot_complete.c lines
444-458): call ExitBootServices with the current map key; on failure,
re-fetch the memory map once and, if the re-fetch succeeded, call
ExitBootServices once more with the fresh key; any remaining failure is
propagated as fatal. -/
def efi_exit_sequence (fw : EfiFirmware) (key0 : Nat) : ExitTrace :=
  match fw.ebsErr key0 with
  | none => { ebsKeys := [key0], gmmCalls := 0, fatal := none }
  | some _ =>
    match fw.gmmRes with
    | Except.error g => { ebsKeys := [key0], gmmCalls := 1, fatal := some g }
    | Except.ok k2 =>
      match fw.ebsErr k2 with
      | none => { ebsKeys := [key0, k2], gmmCalls := 1, fatal := none }
      | some e2 => { ebsKeys := [key0, k2], gmmCalls := 1, fatal := some e2 }

/-- Non-overlap of destination ranges [p_paddr, p_paddr + p_memsz) of two
program-header entries. -/
def segDisjoint (p q : Phdr) : Prop :=
  p.p_paddr + p.p_memsz ≤ q.p_paddr ∨ q.p_paddr + q.p_memsz ≤ p.p_paddr

/-- Constant file bytes used by the concrete loader runs below. -/
def cxFile : Nat → Nat := fun _ => 0xAB

/-- All-zero initial memory for the concrete loader runs. -/
def cxMem0 : Mem := fun _ => 0

/-- Initial loader.c loop state over cxMem0. -/
def cxSt0 : LoadSt := { mem := cxMem0, base := UINT64_MAX, stop := 0 }

/-- A loadable one-byte segment at 1 MiB. -/
def cxSegHigh : Phdr :=
  { p_type := 1, p_offset := 0, p_paddr := 0x100000, p_filesz := 1, p_memsz := 1 }

/-- A loadable one-byte segment below 1 MiB. -/
def cxSegLow : Phdr :=
  { p_type := 1, p_offset := 1, p_paddr := 0x1000, p_filesz := 1, p_memsz := 1 }

/-- A loadable segment at 1 MiB with a one-byte BSS tail. -/
def cxSegZ : Phdr :=
  { p_type := 1, p_offset := 0, p_paddr := 0x100000, p_filesz := 1, p_memsz := 2 }

/-- A header with valid magic, 64-bit class and x86-64 machine, but a
big-endian data byte and ET_DYN object type. -/
def cxHdrDyn : Ehdr :=
  { ei_mag0 := 0x7F, ei_mag1 := 0x45, ei_mag2 := 0x4C, ei_mag3 := 0x46,
    ei_class := 2, ei_data := 2, e_type := 3, e_machine := 62,
    e_entry := 0x100000, e_phoff := 64 }

/-- A fully valid header with entry point 0x100000. -/
def cxHdrGood : Ehdr :=
  { ei_mag0 := 0x7F, ei_mag1 := 0x45, ei_mag2 := 0x4C, ei_mag3 := 0x46,
    ei_class := 2, ei_data := 1, e_type := 2, e_machine := 62,
    e_entry := 0x100000, e_phoff := 64 }

/-- A well-formed single-segment image. -/
def cxImgGood : ElfImage :=
  { hdr := cxHdrGood, phdrs := [cxSegZ], file := cxFile }

/-- The same well-formed image staged at every candidate base address. -/
def cxImages : Nat → ElfImage := fun _ => cxImgGood

/-- A fully valid image whose entry point is 0. -/
def cxImgEntry0 : ElfImage :=
  { hdr := { ei_mag0 := 0x7F, ei_mag1 := 0x45, ei_mag2 := 0x4C, ei_mag3 := 0x46,
             ei_class := 2, ei_data := 1, e_type := 2, e_machine := 62,
             e_entry := 0, e_phoff := 64 },
    phdrs := [cxSegZ], file := cxFile }

/-- An image with two adjacent one-byte loadable segments at 1 MiB. -/
def cxEfiImg : ElfImage :=
  { hdr := cxHdrGood,
    phdrs := [ { p_type := 1, p_offset := 0, p_paddr := 0x100000,
                 p_filesz := 1, p_memsz := 1 },
               { p_type := 1, p_offset := 1, p_paddr := 0x100001,
                 p_filesz := 1, p_memsz := 1 } ],
    file := cxFile }

/-- Loaded memory holding bytes 1 and 2 at the two segment addresses of
cxEfiImg. -/
def cxLoadedMem : Mem := fun a =>
  if a = 0x100000 then 1 else if a = 0x100001 then 2 else 0

/-- The synthetic memory-map input of the spec: 1 MiB reserved at 0, then
0x7F00000 usable bytes at 1 MiB (E820 form). -/
def cxE820 : List E820Entry :=
  [ { base := 0, length := 0x100000, typ := 2 },
    { base := 0x100000, length := 0x7F00000, typ := 1 } ]

/-- The same synthetic memory map in UEFI descriptor form (4 KiB pages). -/
def cxEfiDescs : List EfiDesc :=
  [ { typ := 0, physicalStart := 0, numberOfPages := 0x100 },
    { typ := 7, physicalStart := 0x100000, numberOfPages := 0x7F00 } ]

/-- Firmware behaviour where ExitBootServices succeeds only with map key 5
and the re-fetched memory map carries key 5. -/
def cxFw : EfiFirmware :=
  { ebsErr := fun k => if k = 5 then none else some 7,
    gmmRes := Except.ok 5 }

theorem writeSeg_copy (file : Nat → Nat) (ph : Phdr) (m : Mem) (j : Nat)
    (hj : j < ph.p_filesz) :
    writeSeg file ph m (ph.p_paddr + j) = file (ph.p_offset + j) := by
  unfold writeSeg
  rw [if_pos ⟨Nat.le_add_right _ _, by omega⟩]
  congr 1
  omega

theorem writeSeg_zero (file : Nat → Nat) (ph : Phdr) (m : Mem) (j : Nat)
    (h1 : ph.p_filesz ≤ j) (h2 : j < ph.p_memsz) :
    writeSeg file ph m (ph.p_paddr + j) = 0 := by
  unfold writeSeg
  rw [if_neg (by omega), if_pos ⟨Nat.le_add_right _ _, by omega⟩]

theorem writeSeg_outside (file : Nat → Nat) (ph : Phdr) (m : Mem) (a : Nat)
    (h : a < ph.p_paddr ∨
      (ph.p_paddr + ph.p_filesz ≤ a ∧ ph.p_paddr + ph.p_memsz ≤ a)) :
    writeSeg file ph m a = m a := by
  unfold writeSeg
  rw [if_neg (by omega), if_neg (by omega)]

theorem loadSegs_nil (file : Nat → Nat) (m : Mem) : loadSegs file [] m = m := rfl

theorem loadSegs_cons (file : Nat → Nat) (q : Phdr) (rest : List Phdr) (m : Mem) :
    loadSegs file (q :: rest) m =
      loadSegs file rest (if q.p_type = PT_LOAD then writeSeg file q m else m) := rfl

theorem loadSegs_outside (file : Nat → Nat) :
    ∀ (phdrs : List Phdr) (m : Mem) (a : Nat),
      (∀ q ∈ phdrs, q.p_type = PT_LOAD →
        a < q.p_paddr ∨ (q.p_paddr + q.p_filesz ≤ a ∧ q.p_paddr + q.p_memsz ≤ a)) →
      loadSegs file phdrs m a = m a := by
  intro phdrs
  induction phdrs with
  | nil => intro m a _; rfl
  | cons q rest ih =>
    intro m a h
    rw [loadSegs_cons, ih _ a (fun r hr => h r (List.mem_cons_of_mem _ hr))]
    by_cases hq : q.p_type = PT_LOAD
    · rw [if_pos hq, writeSeg_outside _ _ _ _ (h q (List.mem_cons_self _ _) hq)]
    · rw [if_neg hq]

theorem loadSegs_seg_correct (file : Nat → Nat) :
    ∀ (phdrs : List Phdr) (m : Mem),
      (∀ q ∈ phdrs, q.p_type = PT_LOAD → q.p_filesz ≤ q.p_memsz) →
      phdrs.Pairwise
        (fun p q => p.p_type = PT_LOAD → q.p_type = PT_LOAD → segDisjoint p q) →
      ∀ ph ∈ phdrs, ph.p_type = PT_LOAD →
        (∀ j, j < ph.p_filesz →
          loadSegs file phdrs m (ph.p_paddr + j) = file (ph.p_offset + j)) ∧
        (∀ j, ph.p_filesz ≤ j → j < ph.p_memsz →
          loadSegs file phdrs m (ph.p_paddr + j) = 0) := by
  intro phdrs
  induction phdrs with
  | nil => intro m _ _ ph hmem; cases hmem
  | cons q rest ih =>
    intro m hsz hdisj ph hmem hload
    rw [List.pairwise_cons] at hdisj
    rcases List.mem_cons.mp hmem with heq | hmem2
    · subst heq
      have hpsz := hsz ph (List.mem_cons_self _ _) hload
      have houtside : ∀ j, j < ph.p_memsz →
          loadSegs file rest (writeSeg file ph m) (ph.p_paddr + j) =
            writeSeg file ph m (ph.p_paddr + j) := by
        intro j hj
        apply loadSegs_outside
        intro r hr hrload
        have hd := hdisj.1 r hr hload hrload
        have hrsz := hsz r (List.mem_cons_of_mem _ hr) hrload
        unfold segDisjoint at hd
        rcases hd with hd | hd
        · left; omega
        · right; omega
      rw [loadSegs_cons, if_pos hload]
      constructor
      · intro j hj
        rw [houtside j (by omega), writeSeg_copy _ _ _ _ hj]
      · intro j h1 h2
        rw [houtside j h2, writeSeg_zero _ _ _ _ h1 h2]
    · rw [loadSegs_cons]
      exact ih _ (fun r hr => hsz r (List.mem_cons_of_mem _ hr)) hdisj.2 ph hmem2 hload

theorem loadLoop_nil (file : Nat → Nat) (st : LoadSt) :
    loadLoop file [] st = (true, st) := rfl

theorem loadLoop_cons (file : Nat → Nat) (q : Phdr) (rest : List Phdr) (st : LoadSt) :
    loadLoop file (q :: rest) st =
      (if q.p_type ≠ PT_LOAD then loadLoop file rest st
       else if q.p_paddr < 0x100000 then (false, st)
       else loadLoop file rest (loadStep file st q)) := rfl

theorem loadLoop_ok_mem (file : Nat → Nat) :
    ∀ (phdrs : List Phdr) (st res : LoadSt),
      loadLoop file phdrs st = (true, res) →
      res.mem = loadSegs file phdrs st.mem := by
  intro phdrs
  induction phdrs with
  | nil =>
    intro st res h
    rw [loadLoop_nil] at h
    cases h
    rfl
  | cons q rest ih =>
    intro st res h
    rw [loadLoop_cons] at h
    rw [loadSegs_cons]
    by_cases hq : q.p_type = PT_LOAD
    · rw [if_neg (not_not_intro hq)] at h
      rw [if_pos hq]
      by_cases hlow : q.p_paddr < 0x100000
      · rw [if_pos hlow] at h; cases h
      · rw [if_neg hlow] at h
        exact ih _ _ h
    · rw [if_pos hq] at h
      rw [if_neg hq]
      exact ih _ _ h

theorem loadLoop_ok_minmax (file : Nat → Nat) :
    ∀ (phdrs : List Phdr) (st res : LoadSt),
      loadLoop file phdrs st = (true, res) →
      res.base = minLoadBase phdrs st.base ∧ res.stop = maxLoadEnd phdrs st.stop := by
  intro phdrs
  induction phdrs with
  | nil =>
    intro st res h
    rw [loadLoop_nil] at h
    cases h
    exact ⟨rfl, rfl⟩
  | cons q rest ih =>
    intro st res h
    rw [loadLoop_cons] at h
    unfold minLoadBase maxLoadEnd
    by_cases hq : q.p_type = PT_LOAD
    · rw [if_neg (not_not_intro hq)] at h
      rw [if_pos hq, if_pos hq]
      by_cases hlow : q.p_paddr < 0x100000
      · rw [if_pos hlow] at h; cases h
      · rw [if_neg hlow] at h
        exact ih _ _ h
    · rw [if_pos hq] at h
      rw [if_neg hq, if_neg hq]
      exact ih _ _ h

theorem loadOkSegs_nil (file : Nat → Nat) (st : LoadSt) :
    loadOkSegs file [] st = st := rfl

theorem loadOkSegs_cons (file : Nat → Nat) (q : Phdr) (rest : List Phdr) (st : LoadSt) :
    loadOkSegs file (q :: rest) st =
      loadOkSegs file rest (if q.p_type = PT_LOAD then loadStep file st q else st) := rfl

theorem loadLoop_abort_at_first_low (file : Nat → Nat) :
    ∀ (pre : List Phdr) (post : List Phdr) (ph : Phdr) (st : LoadSt),
      ph.p_type = PT_LOAD → ph.p_paddr < 0x100000 →
      (∀ q ∈ pre, q.p_type = PT_LOAD → 0x100000 ≤ q.p_paddr) →
      loadLoop file (pre ++ ph :: post) st = (false, loadOkSegs file pre st) := by
  intro pre
  induction pre with
  | nil =>
    intro post ph st hty hlow _
    rw [List.nil_append, loadLoop_cons, if_neg (not_not_intro hty), if_pos hlow,
      loadOkSegs_nil]
  | cons q rest ih =>
    intro post ph st hty hlow hpre
    rw [List.cons_append, loadLoop_cons, loadOkSegs_cons]
    by_cases hq : q.p_type = PT_LOAD
    · rw [if_neg (not_not_intro hq), if_pos hq,
        if_neg (by exact Nat.not_lt.mpr (hpre q (List.mem_cons_self _ _) hq))]
      exact ih post ph _ hty hlow (fun r hr => hpre r (List.mem_cons_of_mem _ hr))
    · rw [if_pos hq, if_neg hq]
      exact ih post ph _ hty hlow (fun r hr => hpre r (List.mem_cons_of_mem _ hr))

/-- Claim C1: for a well-formed image, after the segment loader runs, for each
PT_LOAD program-header entry the destination bytes at
[p_paddr, p_paddr + p_filesz) equal the source file bytes at
[p_offset, p_offset + p_filesz), and the bytes at
[p_paddr + p_filesz, p_paddr + p_memsz) are all zero, under the preconditions
p_filesz ≤ p_memsz and pairwise non-overlapping destination ranges.  The first
conjunct covers the BIOS/EFI load_elf loop (loadSegs); the second covers the
loader.c loop (loadLoop) whenever it completes successfully. -/
theorem segment_loader_correct (file : Nat → Nat) (phdrs : List Phdr) (m : Mem)
    (hsz : ∀ q ∈ phdrs, q.p_type = PT_LOAD → q.p_filesz ≤ q.p_memsz)
    (hdisj : phdrs.Pairwise
      (fun p q => p.p_type = PT_LOAD → q.p_type = PT_LOAD → segDisjoint p q))
    (ph : Phdr) (hmem : ph ∈ phdrs) (hload : ph.p_type = PT_LOAD) :
    ((∀ j, j < ph.p_filesz →
        loadSegs file phdrs m (ph.p_paddr + j) = file (ph.p_offset + j)) ∧
     (∀ j, ph.p_filesz ≤ j → j < ph.p_memsz →
        loadSegs file phdrs m (ph.p_paddr + j) = 0)) ∧
    (∀ st res, loadLoop file phdrs st = (true, res) → st.mem = m →
      (∀ j, j < ph.p_filesz →
        res.mem (ph.p_paddr + j) = file (ph.p_offset + j)) ∧
      (∀ j, ph.p_filesz ≤ j → j < ph.p_memsz →
        res.mem (ph.p_paddr + j) = 0)) := by
  have hmain := loadSegs_seg_correct file phdrs m hsz hdisj ph hmem hload
  refine ⟨hmain, ?_⟩
  intro st res hrun hm
  have hbridge := loadLoop_ok_mem file phdrs st res hrun
  rw [hbridge, hm]
  exact hmain

/-- Witness for C1: loading the single segment cxSegZ (one file byte, one BSS
byte) into all-zero memory leaves the file byte 0xAB at 0x100000 and a zero at
0x100001. -/
theorem segment_loader_correct_witness :
    loadSegs cxFile [cxSegZ] cxMem0 (cxSegZ.p_paddr + 0) = cxFile (cxSegZ.p_offset + 0) ∧
    loadSegs cxFile [cxSegZ] cxMem0 (cxSegZ.p_paddr + 1) = 0 := by
  have h := segment_loader_correct cxFile [cxSegZ] cxMem0
    (by decide)
    (by simp)
    cxSegZ (by simp) rfl
  exact ⟨h.1.1 0 (by decide), h.1.2 1 (by decide) (by decide)⟩

/-- Counterexample for C2: an image whose second loadable segment targets
0x1000 (below 1 MiB) after a first loadable segment at 0x100000.  The loader.c
loop fails, but the first segment has already been copied: the byte at
0x100000 changed from 0 to 0xAB, so the destination range is not left
unchanged. -/
theorem below_1mib_not_all_or_nothing :
    (loadLoop cxFile [cxSegHigh, cxSegLow] cxSt0).1 = false ∧
    (loadLoop cxFile [cxSegHigh, cxSegLow] cxSt0).2.mem 0x100000 = 0xAB ∧
    cxSt0.mem 0x100000 = 0 := by decide

/-- Claim C2 (amended): if a program-header list decomposes as
pre ++ ph :: post where ph is the first loadable segment with p_paddr below
1 MiB (no loadable entry of pre is below 1 MiB), then loading fails, and the
memory state is exactly the one reached by loading the segments of pre: the
offending segment and everything after it are not written, but loadable
segments preceding it in program-header order have already been copied. -/
theorem below_1mib_aborts_after_earlier_segments (file : Nat → Nat)
    (pre post : List Phdr) (ph : Phdr) (st : LoadSt)
    (hty : ph.p_type = PT_LOAD) (hlow : ph.p_paddr < 0x100000)
    (hpre : ∀ q ∈ pre, q.p_type = PT_LOAD → 0x100000 ≤ q.p_paddr) :
    loadLoop file (pre ++ ph :: post) st = (false, loadOkSegs file pre st) :=
  loadLoop_abort_at_first_low file pre post ph st hty hlow hpre

/-- Witness for the amended C2: the concrete two-segment image aborts with
exactly the state reached after loading the first segment. -/
theorem below_1mib_aborts_witness :
    loadLoop cxFile ([cxSegHigh] ++ cxSegLow :: []) cxSt0 =
      (false, loadOkSegs cxFile [cxSegHigh] cxSt0) :=
  below_1mib_aborts_after_earlier_segments cxFile [cxSegHigh] [] cxSegLow cxSt0
    rfl (by decide) (by decide)

/-- Counterexample for C3: the BIOS/EFI verify_elf accepts a header whose
endianness byte is big-endian (2) and whose object type is ET_DYN (3), so the
verifier does not require little-endianness or ET_EXEC. -/
theorem verify_elf_skips_checks :
    verify_elf cxHdrDyn = true ∧
    cxHdrDyn.e_type ≠ ET_EXEC ∧
    cxHdrDyn.ei_data ≠ ELFDATA2LSB := by decide

/-- Claim C3 (amended): the loader.c validate_elf_header accepts exactly the
headers passing all five checks (magic bytes, 64-bit class, little-endian data
byte, ET_EXEC type, x86-64 machine); the BIOS/EFI verify_elf accepts exactly
the headers passing the magic, class and machine checks, regardless of the
endianness byte and the object type. -/
theorem elf_verifier_characterization (h : Ehdr) :
    (validate_elf_header h = true ↔
      (h.ei_mag0 = 0x7F ∧ h.ei_mag1 = 0x45 ∧ h.ei_mag2 = 0x4C ∧ h.ei_mag3 = 0x46 ∧
       h.ei_class = ELFCLASS64 ∧ h.ei_data = ELFDATA2LSB ∧
       h.e_type = ET_EXEC ∧ h.e_machine = EM_X86_64)) ∧
    (verify_elf h = true ↔
      (h.ei_mag0 = 0x7F ∧ h.ei_mag1 = 0x45 ∧ h.ei_mag2 = 0x4C ∧ h.ei_mag3 = 0x46 ∧
       h.ei_class = ELFCLASS64 ∧ h.e_machine = EM_X86_64)) := by
  constructor
  · unfold validate_elf_header
    split_ifs with h1 h2
    · simp only [Bool.false_eq_true, false_iff]
      tauto
    · simp only [Bool.false_eq_true, false_iff]
      tauto
    · simp only [true_iff]
      push_neg at h1 h2
      tauto
  · unfold verify_elf
    split_ifs with h1 h2 h3
    · simp only [Bool.false_eq_true, false_iff]
      tauto
    · simp only [Bool.false_eq_true, false_iff]
      tauto
    · simp only [Bool.false_eq_true, false_iff]
      tauto
    · simp only [true_iff]
      push_neg at h1
      tauto

/-- Witness for the amended C3: the fully valid header passes both verifiers,
via the characterization applied at cxHdrGood. -/
theorem elf_verifier_characterization_witness :
    validate_elf_header cxHdrGood = true ∧ verify_elf cxHdrGood = true :=
  ⟨(elf_verifier_characterization cxHdrGood).1.mpr (by decide),
   (elf_verifier_characterization cxHdrGood).2.mpr (by decide)⟩

/-- Counterexample for C4: on an image with two adjacent one-byte PT_LOAD
segments, the EFI compute_kernel_crc (which xors together per-segment CRC32s,
starting from 0) does not equal the reference CRC32 of the contiguous byte
range [min p_paddr, max p_paddr + p_memsz) of the loaded image. -/
theorem efi_crc_differs_from_range_crc :
    minLoadBase cxEfiImg.phdrs UINT64_MAX = 0x100000 ∧
    maxLoadEnd cxEfiImg.phdrs 0 = 0x100002 ∧
    compute_kernel_crc cxEfiImg cxLoadedMem ≠
      crc32_calc (readRange cxLoadedMem 0x100000 2) := by decide

/-- Claim C4 (amended): the loader.c integrity checker does compute the IEEE
802.3 CRC32 over exactly the contiguous range
[min over PT_LOAD of p_paddr, max over PT_LOAD of p_paddr + p_memsz), and
records that range as kernel_base/kernel_size: whenever
load_kernel_from_memory succeeds with a nonempty load range (of size below
2^32, the C length cast), the recorded base is the minimum segment address,
base + size is the maximum segment end, and the recorded CRC equals
crc32_calc over exactly the bytes [kernel_base, kernel_base + kernel_size) of
the resulting memory.  The EFI compute_kernel_crc does not satisfy this (see
the counterexample); it xors per-segment CRC32s and records no base/size. -/
theorem kernel_crc_over_min_max_range (images : Nat → ElfImage) (slot : Nat)
    (m : Mem)
    (hok : (load_kernel_from_memory images slot m).ok = true)
    (hbase : minLoadBase (images (kernel_load_addr slot)).phdrs UINT64_MAX ≠
      UINT64_MAX)
    (hlt : minLoadBase (images (kernel_load_addr slot)).phdrs UINT64_MAX <
      maxLoadEnd (images (kernel_load_addr slot)).phdrs 0)
    (hsize : maxLoadEnd (images (kernel_load_addr slot)).phdrs 0 -
      minLoadBase (images (kernel_load_addr slot)).phdrs UINT64_MAX < 2 ^ 32) :
    (load_kernel_from_memory images slot m).kernel_base =
      minLoadBase (images (kernel_load_addr slot)).phdrs UINT64_MAX ∧
    (load_kernel_from_memory images slot m).kernel_base +
        (load_kernel_from_memory images slot m).kernel_size =
      maxLoadEnd (images (kernel_load_addr slot)).phdrs 0 ∧
    (load_kernel_from_memory images slot m).kernel_crc32 =
      crc32_calc (readRange (load_kernel_from_memory images slot m).mem
        (load_kernel_from_memory images slot m).kernel_base
        (load_kernel_from_memory images slot m).kernel_size) := by
  unfold load_kernel_from_memory at hok ⊢
  by_cases hv : validate_elf_header (images (kernel_load_addr slot)).hdr = false
  · rw [if_pos hv] at hok
    simp at hok
  · rw [if_neg hv] at hok ⊢
    rcases hres : loadLoop (images (kernel_load_addr slot)).file
        (images (kernel_load_addr slot)).phdrs
        { mem := m, base := UINT64_MAX, stop := 0 } with ⟨b, st⟩
    cases b with
    | false =>
      rw [hres] at hok
      simp at hok
    | true =>
      have hmm := loadLoop_ok_minmax (images (kernel_load_addr slot)).file
        (images (kernel_load_addr slot)).phdrs _ _ hres
      dsimp only at hmm
      have hc : st.base ≠ UINT64_MAX ∧ st.base < st.stop := by
        rw [hmm.1, hmm.2]
        exact ⟨hbase, hlt⟩
      dsimp only
      rw [if_pos hc]
      dsimp only
      refine ⟨hmm.1, ?_, ?_⟩
      · have h1 := hmm.1
        have h2 := hmm.2
        omega
      · have hlt2 : st.stop - st.base < 2 ^ 32 := by
          rw [hmm.1, hmm.2]
          exact hsize
        rw [Nat.mod_eq_of_lt hlt2]

/-- Witness for the amended C4: the single-segment image cxImgGood loaded via
slot value 1; the recorded range is [0x100000, 0x100002) and the CRC is the
CRC32 of those two bytes of the final memory. -/
theorem kernel_crc_over_min_max_range_witness :
    (load_kernel_from_memory cxImages 1 cxMem0).kernel_base =
      minLoadBase (cxImages (kernel_load_addr 1)).phdrs UINT64_MAX ∧
    (load_kernel_from_memory cxImages 1 cxMem0).kernel_base +
        (load_kernel_from_memory cxImages 1 cxMem0).kernel_size =
      maxLoadEnd (cxImages (kernel_load_addr 1)).phdrs 0 ∧
    (load_kernel_from_memory cxImages 1 cxMem0).kernel_crc32 =
      crc32_calc (readRange (load_kernel_from_memory cxImages 1 cxMem0).mem
        (load_kernel_from_memory cxImages 1 cxMem0).kernel_base
        (load_kernel_from_memory cxImages 1 cxMem0).kernel_size) :=
  kernel_crc_over_min_max_range cxImages 1 cxMem0
    (by decide) (by decide) (by decide) (by decide)

/-- Claim C5: the mode-transition sequence of enable_long_mode_and_jump
performs its hardware writes in the required strict order, with no reordering
and no repetition: the descriptor table is loaded first; CR4.PAE is set before
CR3 is written; MSR 0xC0000080 receives LME and NXE before CR0.PG is set;
setting CR0.PG is the last control-register write; and the final operation is
a far jump through selector 0x08 to the transition stub at ENTRY64_LINEAR.
The filter equalities pin both the order and the exact multiset of writes. -/
theorem long_mode_sequence_order :
    enable_long_mode_trace.head? = some HwOp.lgdt ∧
    enable_long_mode_trace.filter isSeqOp =
      [ HwOp.lgdt, HwOp.writeCr4 true, HwOp.writeCr3,
        HwOp.writeMsr 0xC0000080 true true, HwOp.writeCr0 true,
        HwOp.farJump 0x08 ENTRY64_LINEAR ] ∧
    enable_long_mode_trace.filter isCrWrite =
      [ HwOp.writeCr4 true, HwOp.writeCr3, HwOp.writeCr0 true ] ∧
    enable_long_mode_trace.getLast? = some (HwOp.farJump 0x08 ENTRY64_LINEAR) := by
  decide

/-- Counterexample for C6: the boot record built by loader.c carries version
1, not 0x00010000. -/
theorem loader_bootinfo_version_not_10 :
    (build_bootinfo 0).version = 1 ∧
    (build_bootinfo 0).version ≠ 0x00010000 ∧
    (build_bootinfo 0).magic = 0x42534447 := by decide

/-- Claim C6 (amended): every boot record has magic 0x42534447 and a size
field computed from the record layout (sizeof); the BIOS and UEFI records
carry version 0x00010000, but the loader.c record carries version 1. -/
theorem bootinfo_header_fields (c1 c2 c3 : Nat) (descs : List EfiDesc) :
    (build_bootinfo c1).magic = 0x42534447 ∧
    (build_bootinfo c1).version = 1 ∧
    (build_bootinfo c1).size = bootinfo_layout_loader.sum ∧
    (bios_build_bootinfo c2).magic = 0x42534447 ∧
    (bios_build_bootinfo c2).version = 0x00010000 ∧
    (bios_build_bootinfo c2).size = bootinfo_layout_bios.sum ∧
    (efi_build_bootinfo descs c3).magic = 0x42534447 ∧
    (efi_build_bootinfo descs c3).version = 0x00010000 ∧
    (efi_build_bootinfo descs c3).size = bootinfo_layout_efi.sum :=
  ⟨rfl, rfl, rfl, rfl, rfl, rfl, rfl, rfl, rfl⟩

/-- Counterexample for C7: on the synthetic map
{(0, 0x100000, reserved), (0x100000, 0x7F00000, usable)}, the translator does
not report mem_upper = 129024 KiB; it reports 0x7F00000 / 1024 = 130048 KiB. -/
theorem memmap_aggregation_not_129024 :
    detect_memory_e820 cxE820 ≠ (0, 129024) ∧
    detect_memory_e820 cxE820 = (0, 130048) := by decide

/-- Claim C7 (amended): on the synthetic entries
{(0, 0x100000, reserved), (0x100000, 0x7F00000, usable)}, both memory-map
translators report mem_lower = 0 KiB and mem_upper = 0x7F00000 / 1024 =
130048 KiB (not 129024: the spec mis-evaluates its own expression). -/
theorem memmap_aggregation_synthetic :
    detect_memory_e820 cxE820 = (0, 130048) ∧
    0x7F00000 / 1024 = 130048 ∧
    (efi_build_bootinfo cxEfiDescs 0).mem_lower = 0 ∧
    (efi_build_bootinfo cxEfiDescs 0).mem_upper = 130048 := by decide

theorem efi_exit_sequence_success (fw : EfiFirmware) (key0 : Nat)
    (h : fw.ebsErr key0 = none) :
    efi_exit_sequence fw key0 =
      { ebsKeys := [key0], gmmCalls := 0, fatal := none } := by
  unfold efi_exit_sequence
  rw [h]

theorem efi_exit_sequence_gmm_fail (fw : EfiFirmware) (key0 e g : Nat)
    (h1 : fw.ebsErr key0 = some e) (h2 : fw.gmmRes = Except.error g) :
    efi_exit_sequence fw key0 =
      { ebsKeys := [key0], gmmCalls := 1, fatal := some g } := by
  unfold efi_exit_sequence
  rw [h1, h2]

theorem efi_exit_sequence_retry_once (fw : EfiFirmware) (key0 e k2 : Nat)
    (h1 : fw.ebsErr key0 = some e) (h2 : fw.gmmRes = Except.ok k2) :
    efi_exit_sequence fw key0 =
      { ebsKeys := [key0, k2], gmmCalls := 1, fatal := fw.ebsErr k2 } := by
  unfold efi_exit_sequence
  simp only [h1, h2]
  rcases h3 : fw.ebsErr k2 with _ | e2 <;> simp only [h3]

/-- Claim C8: if the first ExitBootServices call fails, efi_main retries
exactly once, re-fetching the memory map and calling ExitBootServices one
more time with the fresh key; if the re-fetch or the retry fails, that
failure is propagated as fatal; ExitBootServices is never called a third
time (at most two keys are ever passed) and at most one post-failure
GetMemoryMap call is made. -/
theorem exit_boot_services_retry (fw : EfiFirmware) (key0 : Nat) :
    (efi_exit_sequence fw key0).ebsKeys.length ≤ 2 ∧
    (efi_exit_sequence fw key0).gmmCalls ≤ 1 ∧
    (fw.ebsErr key0 = none →
      efi_exit_sequence fw key0 =
        { ebsKeys := [key0], gmmCalls := 0, fatal := none }) ∧
    (∀ e g, fw.ebsErr key0 = some e → fw.gmmRes = Except.error g →
      efi_exit_sequence fw key0 =
        { ebsKeys := [key0], gmmCalls := 1, fatal := some g }) ∧
    (∀ e k2, fw.ebsErr key0 = some e → fw.gmmRes = Except.ok k2 →
      (efi_exit_sequence fw key0).ebsKeys = [key0, k2] ∧
      (efi_exit_sequence fw key0).gmmCalls = 1 ∧
      (efi_exit_sequence fw key0).fatal = fw.ebsErr k2) := by
  refine ⟨?_, ?_, ?_, ?_, ?_⟩
  · rcases h1 : fw.ebsErr key0 with _ | e1
    · rw [efi_exit_sequence_success fw key0 h1]
      simp
    · rcases h2 : fw.gmmRes with g | k2
      · rw [efi_exit_sequence_gmm_fail fw key0 e1 g h1 h2]
        simp
      · rw [efi_exit_sequence_retry_once fw key0 e1 k2 h1 h2]
        simp
  · rcases h1 : fw.ebsErr key0 with _ | e1
    · rw [efi_exit_sequence_success fw key0 h1]
      simp
    · rcases h2 : fw.gmmRes with g | k2
      · rw [efi_exit_sequence_gmm_fail fw key0 e1 g h1 h2]
      · rw [efi_exit_sequence_retry_once fw key0 e1 k2 h1 h2]
  · intro h
    exact efi_exit_sequence_success fw key0 h
  · intro e g he hg
    exact efi_exit_sequence_gmm_fail fw key0 e g he hg
  · intro e k2 he hg
    rw [efi_exit_sequence_retry_once fw key0 e k2 he hg]
    exact ⟨rfl, rfl, rfl⟩

/-- Witness for C8: with firmware cxFw and initial key 3, the first call
fails, the map is re-fetched once (fresh key 5) and the second call succeeds;
exactly the keys 3 then 5 are passed and no fatal error remains. -/
theorem exit_boot_services_retry_witness :
    (efi_exit_sequence cxFw 3).ebsKeys = [3, 5] ∧
    (efi_exit_sequence cxFw 3).gmmCalls = 1 ∧
    (efi_exit_sequence cxFw 3).fatal = none := by
  have h := (exit_boot_services_retry cxFw 3).2.2.2.2 7 5 (by decide) rfl
  exact ⟨h.1, h.2.1, h.2.2.trans (by decide)⟩

/-- Claim C9: load_elf returns 0 when verification fails and the image
e_entry on success, and the callers treat a returned 0 as fatal
(caller_boots); hence a verified image whose entry point is 0 yields the
same return value 0 as a verification failure and is never booted. -/
theorem load_elf_zero_entry_ambiguity (img : ElfImage) (m : Mem) :
    (verify_elf img.hdr = false → (load_elf img m).1 = 0) ∧
    (verify_elf img.hdr = true → (load_elf img m).1 = img.hdr.e_entry) ∧
    (img.hdr.e_entry = 0 → (load_elf img m).1 = 0) ∧
    (caller_boots (load_elf img m).1 = true ↔ (load_elf img m).1 ≠ 0) := by
  unfold load_elf caller_boots
  cases hv : verify_elf img.hdr with
  | false =>
    rw [if_pos rfl]
    refine ⟨fun _ => rfl, ?_, fun _ => rfl, ?_⟩
    · intro h
      cases h
    · rw [if_pos rfl]
      simp
  | true =>
    rw [if_neg (by simp)]
    refine ⟨?_, fun _ => rfl, ?_, ?_⟩
    · intro h
      cases h
    · intro h
      exact h
    · by_cases he : img.hdr.e_entry = 0
      · rw [if_pos he]
        simp [he]
      · rw [if_neg he]
        simp [he]

/-- Witness for C9: the fully valid image cxImgEntry0 has entry point 0; the
BIOS/EFI load_elf returns 0 for it and the caller refuses to boot, exactly as
for a verification failure. -/
theorem load_elf_zero_entry_ambiguity_witness :
    (load_elf cxImgEntry0 cxMem0).1 = 0 ∧
    caller_boots (load_elf cxImgEntry0 cxMem0).1 = false := by
  have h := (load_elf_zero_entry_ambiguity cxImgEntry0 cxMem0).2.2.1 rfl
  refine ⟨h, ?_⟩
  rw [h]
  decide

/-- Claim C10: a zero value in the KERNEL_PHYS_PTR handoff slot does not make
the loader fail: load_kernel_from_memory silently substitutes the legacy
fallback address 0x10000 and proceeds to validate and load the image staged
there (its run is identical to a run with slot value 0x10000); any nonzero
slot value is used as the image location unchanged. -/
theorem kernel_slot_zero_fallback (images : Nat → ElfImage) (m : Mem) :
    kernel_load_addr 0 = 0x10000 ∧
    (∀ slot, slot ≠ 0 → kernel_load_addr slot = slot) ∧
    load_kernel_from_memory images 0 m = load_kernel_from_memory images 0x10000 m := by
  refine ⟨rfl, ?_, rfl⟩
  intro slot h
  unfold kernel_load_addr
  rw [if_neg h]

/-- Witness for C10: slot value 0 maps to the fallback 0x10000 and the
nonzero slot value 7 maps to itself. -/
theorem kernel_slot_zero_fallback_witness :
    kernel_load_addr 0 = 0x10000 ∧ kernel_load_addr 7 = 7 :=
  ⟨(kernel_slot_zero_fallback cxImages cxMem0).1,
   (kernel_slot_zero_fallback cxImages cxMem0).2.1 7 (by decide)⟩

end GuaBoot
